import Mathlib

/-!
Verification of the embedding loader (src/embedding_loader.py).

The development shallowly embeds the Python module: Python values that flow
into loosely typed parameters become `PyVal`; serialized numeric artifacts
become `Mat` (a matrix with a shape and row-major integer entries); the local
filesystem becomes `FS`, a map from paths to optional artifacts together with
a directory predicate; observable effects (files opened, lines printed)
become an explicit `Trace`.  Exceptions become `Except Err`:  Python
`assert` failures are `Err.assertionError`, a missing file is
`Err.fileNotFoundError`, and the shape errors of the numeric libraries are
`Err.valueError`.
-/

deriving instance DecidableEq for Except

/-- A Python value, covering the kinds of values the loader touches. -/
inductive PyVal where
  | int : Int → PyVal
  | bool : Bool → PyVal
  | str : String → PyVal
  | none : PyVal
deriving DecidableEq

/-- Rendering of a `PyVal` as Python `str` renders it, as used by
`str.format` interpolation. -/
def PyVal.toStr : PyVal → String
  | .int n => toString n
  | .bool b => if b then "True" else "False"
  | .str s => s
  | .none => "None"

/-- Python truthiness of a `PyVal`, as used by `x if v else y`. -/
def PyVal.truthy : PyVal → Bool
  | .int n => n != 0
  | .bool b => b
  | .str s => s != ""
  | .none => false

/-- Whether a `PyVal` is a Python `bool`, as tested by
`isinstance(v, bool)`. -/
def PyVal.isBool : PyVal → Bool
  | .bool _ => true
  | _ => false

/-- The exceptions the loader can raise. -/
inductive Err where
  | assertionError : String → Err
  | fileNotFoundError : String → Err
  | valueError : String → Err
deriving DecidableEq

/-- A serialized numeric artifact: a 2-D matrix with a shape and row-major
integer entries.  Label vectors are matrices of a single column. -/
structure Mat where
  rows : Nat
  cols : Nat
  data : List (List Int)
deriving DecidableEq

/-- Observable effects of one operation: the paths opened for reading, in
order, and the lines printed to standard output, in order. -/
structure Trace where
  opened : List String
  printed : List String
deriving DecidableEq

/-- Sequencing of effects. -/
def Trace.append (t u : Trace) : Trace :=
  ⟨t.opened ++ u.opened, t.printed ++ u.printed⟩

/-- The empty effect: nothing opened, nothing printed. -/
def Trace.empty : Trace := ⟨[], []⟩

/-- The filesystem: contents of regular files and which paths are
directories. -/
structure FS where
  files : String → Option Mat
  isdir : String → Bool

/-- Whether a string starts with the path separator `/`. -/
def startswith_sep (s : String) : Bool := List.isPrefixOf ("/".data) s.data

/-- Whether a string ends with the path separator `/`. -/
def endswith_sep (s : String) : Bool := List.isSuffixOf ("/".data) s.data

/-- Model of `os.path.join` on the two-argument calls the loader makes:
an absolute second component replaces the first; otherwise the components
are joined, inserting `/` unless the first is empty or already ends in
`/`. -/
def os_path_join (a b : String) : String :=
  if startswith_sep b then b
  else if a = "" then b
  else if endswith_sep a then a ++ b
  else a ++ "/" ++ b

/-- Model of `scipy.sparse.hstack` on two blocks: stacks the blocks along
the column axis; raises `ValueError` when the row counts differ. -/
def hstack (a b : Mat) : Except Err Mat :=
  if a.rows = b.rows then
    .ok ⟨a.rows, a.cols + b.cols, List.zipWith (fun r s => r ++ s) a.data b.data⟩
  else
    .error (.valueError "blocks must have matching row dimensions")

/-- Model of `numpy.concatenate` with `axis=1` on two 2-D arrays:
concatenates along the column axis; raises `ValueError` when the row
counts differ. -/
def np_concatenate_axis1 (a b : Mat) : Except Err Mat :=
  if a.rows = b.rows then
    .ok ⟨a.rows, a.cols + b.cols, List.zipWith (fun r s => r ++ s) a.data b.data⟩
  else
    .error (.valueError "input array dimensions other than the concatenation axis must match")

/-- The message of the `assert` guarding `corpus`. -/
def corpusMsg : String :=
  "\x60corpus\x60 must be either \x27title\x27, \x27text\x27, or \x27concat\x27"

/-- The message of the `assert` guarding `scorer`. -/
def scorerMsg : String :=
  "\x60scorer\x60 must be either \x27count\x27 or \x27tfidf\x27"

/-- The message of the `assert` guarding `normalize`. -/
def normalizeMsg : String := "\x60normalize\x60 must be a bool"

/-- The message of the `assert` guarding `normalizer`. -/
def normalizerMsg : String :=
  "\x60normalizer\x60 must be \x27l2\x27, \x27mean\x27 or None"

/-- The loader object: its only attribute is the directory where the
embeddings are saved. -/
structure EmbeddingLoader where
  parent_dir : String
deriving DecidableEq

/-- Constructor of the loader: asserts that `parent_dir` is a directory and
stores it. -/
def EmbeddingLoader.init (fs : FS) (parent_dir : String) :
    Except Err EmbeddingLoader :=
  if fs.isdir parent_dir then .ok ⟨parent_dir⟩
  else .error (.assertionError (parent_dir ++ " is not a valid directory"))

/-- `EmbeddingLoader.get_file`: opens `path` and unpickles it.  When the file
is missing, prints two hint lines and the caught error, then re-raises a
`FileNotFoundError` carrying exactly the path. -/
def EmbeddingLoader.get_file (fs : FS) (path : String) : Except Err Mat × Trace :=
  match fs.files path with
  | some item => (.ok item, ⟨[path], []⟩)
  | Option.none =>
      (.error (.fileNotFoundError path),
       ⟨[path],
        ["unable to load " ++ path ++ ", see stack trace below",
         "double check that you have the file saved " ++ path,
         path]⟩)

/-- `EmbeddingLoader.get_onehot_filename`. -/
def EmbeddingLoader.get_onehot_filename (corpus scorer : String)
    (normalize : PyVal) : String :=
  corpus ++ "-onehot(scorer=" ++ scorer ++
    (if normalize.truthy then ", normalized" else "") ++ ").pkl"

/-- `EmbeddingLoader.get_d2v_filename`. -/
def EmbeddingLoader.get_d2v_filename (corpus : String)
    (vec_size win_size min_count dm epochs : PyVal) : String :=
  corpus ++ "-d2v(vecsize=" ++ vec_size.toStr ++ ", winsize=" ++
    win_size.toStr ++ ", mincount=" ++ min_count.toStr ++ ", " ++
    (if dm.truthy then "dm" else "dbow") ++ ", epochs=" ++ epochs.toStr ++
    ").pkl"

/-- `EmbeddingLoader.get_nd2v_filename`; Python `str(None)` is the literal
text `None`. -/
def EmbeddingLoader.get_nd2v_filename (corpus : String)
    (normalizer : Option String) : String :=
  corpus ++ "-nd2v(normalizer=" ++
    (match normalizer with
     | Option.none => "None"
     | some s => s) ++ ").pkl"

/-- `EmbeddingLoader.get_onehot`: asserts the parameter domains, then for
`title` or `text` loads the single file, and for `concat` recursively loads
`title` and `text` and stacks them with `scipy.sparse.hstack`. -/
def EmbeddingLoader.get_onehot (self : EmbeddingLoader) (fs : FS)
    (corpus scorer : String) (normalize : PyVal) : Except Err Mat × Trace :=
  if _h1 : ¬ (corpus = "title" ∨ corpus = "text" ∨ corpus = "concat") then
    (.error (.assertionError corpusMsg), Trace.empty)
  else if _h2 : ¬ (scorer = "count" ∨ scorer = "tfidf") then
    (.error (.assertionError scorerMsg), Trace.empty)
  else if _h3 : ¬ normalize.isBool then
    (.error (.assertionError normalizeMsg), Trace.empty)
  else if _h4 : corpus = "title" ∨ corpus = "text" then
    EmbeddingLoader.get_file fs (os_path_join self.parent_dir
      (EmbeddingLoader.get_onehot_filename corpus scorer normalize))
  else
    match EmbeddingLoader.get_onehot self fs "title" scorer normalize with
    | (.error e, t1) => (.error e, t1)
    | (.ok a, t1) =>
      match EmbeddingLoader.get_onehot self fs "text" scorer normalize with
      | (.error e, t2) => (.error e, t1.append t2)
      | (.ok b, t2) =>
        match hstack a b with
        | .ok m => (.ok m, t1.append t2)
        | .error e => (.error e, t1.append t2)
termination_by (if corpus = "concat" then 1 else 0)
decreasing_by
  all_goals simp_all

/-- `EmbeddingLoader.get_d2v`: asserts only the corpus domain, then for
`title` or `text` loads the single file, and for `concat` recursively loads
`title` and `text` and concatenates them with `numpy.concatenate` on
`axis=1`. -/
def EmbeddingLoader.get_d2v (self : EmbeddingLoader) (fs : FS)
    (corpus : String) (vec_size win_size min_count dm epochs : PyVal) :
    Except Err Mat × Trace :=
  if _h1 : ¬ (corpus = "title" ∨ corpus = "text" ∨ corpus = "concat") then
    (.error (.assertionError corpusMsg), Trace.empty)
  else if _h4 : corpus = "title" ∨ corpus = "text" then
    EmbeddingLoader.get_file fs (os_path_join self.parent_dir
      (EmbeddingLoader.get_d2v_filename corpus vec_size win_size min_count dm
        epochs))
  else
    match EmbeddingLoader.get_d2v self fs "title" vec_size win_size min_count
        dm epochs with
    | (.error e, t1) => (.error e, t1)
    | (.ok a, t1) =>
      match EmbeddingLoader.get_d2v self fs "text" vec_size win_size min_count
          dm epochs with
      | (.error e, t2) => (.error e, t1.append t2)
      | (.ok b, t2) =>
        match np_concatenate_axis1 a b with
        | .ok m => (.ok m, t1.append t2)
        | .error e => (.error e, t1.append t2)
termination_by (if corpus = "concat" then 1 else 0)
decreasing_by
  all_goals simp_all

/-- `EmbeddingLoader.get_nd2v`: asserts the corpus and normalizer domains,
then for `title` or `text` loads the single file, and for `concat`
recursively loads `title` and `text` and concatenates them with
`numpy.concatenate` on `axis=1`. -/
def EmbeddingLoader.get_nd2v (self : EmbeddingLoader) (fs : FS)
    (corpus : String) (normalizer : Option String) : Except Err Mat × Trace :=
  if _h1 : ¬ (corpus = "title" ∨ corpus = "text" ∨ corpus = "concat") then
    (.error (.assertionError corpusMsg), Trace.empty)
  else if _h2 : ¬ (normalizer = Option.none ∨ normalizer = some "l2" ∨
      normalizer = some "mean") then
    (.error (.assertionError normalizerMsg), Trace.empty)
  else if _h4 : corpus = "title" ∨ corpus = "text" then
    EmbeddingLoader.get_file fs (os_path_join self.parent_dir
      (EmbeddingLoader.get_nd2v_filename corpus normalizer))
  else
    match EmbeddingLoader.get_nd2v self fs "title" normalizer with
    | (.error e, t1) => (.error e, t1)
    | (.ok a, t1) =>
      match EmbeddingLoader.get_nd2v self fs "text" normalizer with
      | (.error e, t2) => (.error e, t1.append t2)
      | (.ok b, t2) =>
        match np_concatenate_axis1 a b with
        | .ok m => (.ok m, t1.append t2)
        | .error e => (.error e, t1.append t2)
termination_by (if corpus = "concat" then 1 else 0)
decreasing_by
  all_goals simp_all

/-- `EmbeddingLoader.get_label`: loads the fixed `label.pkl` artifact. -/
def EmbeddingLoader.get_label (self : EmbeddingLoader) (fs : FS) :
    Except Err Mat × Trace :=
  EmbeddingLoader.get_file fs (os_path_join self.parent_dir "label.pkl")

/-! Concrete fixtures used by witnesses: a loader over the directory
`embeddings`, a filesystem whose `title` and `text` artifacts have matching
row counts, and one whose `text` artifacts have a third row. -/

/-- A 2-by-3 artifact standing for a `title` embedding matrix. -/
def matA : Mat := ⟨2, 3, [[1, 0, 2], [0, 4, 0]]⟩

/-- A 2-by-2 artifact standing for a `text` embedding matrix. -/
def matB : Mat := ⟨2, 2, [[5, 6], [7, 8]]⟩

/-- A 3-by-2 artifact whose row count disagrees with `matA`. -/
def matC : Mat := ⟨3, 2, [[1, 2], [3, 4], [5, 6]]⟩

/-- The demonstration loader, over the directory `embeddings`. -/
def demoLoader : EmbeddingLoader := ⟨"embeddings"⟩

/-- A filesystem holding one artifact of each kind for `title` and `text`,
with matching row counts, plus the label vector. -/
def fsOk : FS :=
  ⟨fun p =>
    if p = "embeddings/title-onehot(scorer=count).pkl" then some matA
    else if p = "embeddings/text-onehot(scorer=count).pkl" then some matB
    else if p = "embeddings/title-d2v(vecsize=300, winsize=13, mincount=5, dbow, epochs=100).pkl" then some matA
    else if p = "embeddings/text-d2v(vecsize=300, winsize=13, mincount=5, dbow, epochs=100).pkl" then some matB
    else if p = "embeddings/title-nd2v(normalizer=None).pkl" then some matA
    else if p = "embeddings/text-nd2v(normalizer=None).pkl" then some matB
    else if p = "embeddings/label.pkl" then some ⟨2, 1, [[0], [1]]⟩
    else Option.none,
   fun d => d = "embeddings"⟩

/-- Like `fsOk`, but every `text` artifact has three rows while every
`title` artifact has two. -/
def fsMis : FS :=
  ⟨fun p =>
    if p = "embeddings/title-onehot(scorer=count).pkl" then some matA
    else if p = "embeddings/text-onehot(scorer=count).pkl" then some matC
    else if p = "embeddings/title-d2v(vecsize=300, winsize=13, mincount=5, dbow, epochs=100).pkl" then some matA
    else if p = "embeddings/text-d2v(vecsize=300, winsize=13, mincount=5, dbow, epochs=100).pkl" then some matC
    else if p = "embeddings/title-nd2v(normalizer=None).pkl" then some matA
    else if p = "embeddings/text-nd2v(normalizer=None).pkl" then some matC
    else Option.none,
   fun d => d = "embeddings"⟩

/-- The filesystem `fsOk` with every directory removed: same file contents,
different directory predicate. -/
def fsOkAltDirs : FS := ⟨fsOk.files, fun _ => false⟩

/-! The filename patterns exactly as the specification documents them, for
comparison with the filename functions embedded from the source. -/

/-- The documented one-hot pattern: the text `, normalized` appears exactly
when `normalize` is true. -/
def oneHotKeySpec (corpus scorer : String) (normalize : Bool) : String :=
  if normalize then corpus ++ "-onehot(scorer=" ++ scorer ++ ", normalized).pkl"
  else corpus ++ "-onehot(scorer=" ++ scorer ++ ").pkl"

/-- The documented Doc2Vec pattern, with the mode segment `dm` when `dm` is
true and `dbow` otherwise. -/
def d2vKeySpec (corpus : String) (vec_size win_size min_count : Int)
    (dm : Bool) (epochs : Int) : String :=
  corpus ++ "-d2v(vecsize=" ++ toString vec_size ++ ", winsize=" ++
    toString win_size ++ ", mincount=" ++ toString min_count ++ ", " ++
    (if dm then "dm" else "dbow") ++ ", epochs=" ++ toString epochs ++
    ").pkl"

/-- The documented naive Doc2Vec pattern, with the literal text `None` when
the normalizer is unset. -/
def naiveD2vKeySpec (corpus : String) (normalizer : Option String) : String :=
  match normalizer with
  | Option.none => corpus ++ "-nd2v(normalizer=None).pkl"
  | some s => corpus ++ "-nd2v(normalizer=" ++ s ++ ").pkl"

/-- Claim C2: for every corpus, scorer and boolean normalize flag, the
one-hot filename function produces exactly the documented pattern, the
suffix `, normalized` appearing exactly when the flag is true; in
particular the two documented example keys hold. -/
theorem C2_onehot_filename (corpus scorer : String) (b : Bool) :
    EmbeddingLoader.get_onehot_filename corpus scorer (.bool b) =
      oneHotKeySpec corpus scorer b ∧
    EmbeddingLoader.get_onehot_filename "title" "count" (.bool false) =
      "title-onehot(scorer=count).pkl" ∧
    EmbeddingLoader.get_onehot_filename "title" "tfidf" (.bool true) =
      "title-onehot(scorer=tfidf, normalized).pkl" := by
  refine ⟨?_, by decide, by decide⟩
  cases b <;> simp [EmbeddingLoader.get_onehot_filename, oneHotKeySpec,
    PyVal.truthy, String.append_assoc]

/-- Claim C3: for every corpus and integer parameters with a boolean `dm`,
the Doc2Vec filename function produces exactly the documented pattern, the
mode segment being `dm` when `dm` is true and `dbow` when it is false; in
particular the documented example key holds, in both modes. -/
theorem C3_d2v_filename (corpus : String) (v w m e : Int) (dm : Bool) :
    EmbeddingLoader.get_d2v_filename corpus (.int v) (.int w) (.int m)
        (.bool dm) (.int e) =
      d2vKeySpec corpus v w m dm e ∧
    EmbeddingLoader.get_d2v_filename "text" (.int 300) (.int 13) (.int 5)
        (.bool false) (.int 100) =
      "text-d2v(vecsize=300, winsize=13, mincount=5, dbow, epochs=100).pkl" ∧
    EmbeddingLoader.get_d2v_filename "text" (.int 300) (.int 13) (.int 5)
        (.bool true) (.int 100) =
      "text-d2v(vecsize=300, winsize=13, mincount=5, dm, epochs=100).pkl" := by
  refine ⟨?_, by decide, by decide⟩
  cases dm <;> simp [EmbeddingLoader.get_d2v_filename, d2vKeySpec,
    PyVal.truthy, PyVal.toStr, String.append_assoc]

/-- Claim C4: for every corpus and optional normalizer, the naive Doc2Vec
filename function produces exactly the documented pattern, substituting the
literal text `None` when the normalizer is unset; in particular the
documented example key holds. -/
theorem C4_nd2v_filename (corpus : String) (nz : Option String) :
    EmbeddingLoader.get_nd2v_filename corpus nz =
      naiveD2vKeySpec corpus nz ∧
    EmbeddingLoader.get_nd2v_filename "title" Option.none =
      "title-nd2v(normalizer=None).pkl" := by
  refine ⟨?_, by decide⟩
  cases nz <;> simp [EmbeddingLoader.get_nd2v_filename, naiveD2vKeySpec,
    String.append_assoc]

set_option maxRecDepth 8000

/-- For a valid scorer and boolean normalize flag, once the `title` and
`text` one-hot artifacts load successfully, the `concat` request returns
exactly their `scipy.sparse.hstack`. -/
theorem get_onehot_concat_combines (L : EmbeddingLoader) (fs : FS)
    (scorer : String) (b : Bool) (mt mx : Mat)
    (hs : scorer = "count" ∨ scorer = "tfidf")
    (ht : (EmbeddingLoader.get_onehot L fs "title" scorer (.bool b)).1 = .ok mt)
    (hx : (EmbeddingLoader.get_onehot L fs "text" scorer (.bool b)).1 = .ok mx) :
    (EmbeddingLoader.get_onehot L fs "concat" scorer (.bool b)).1 =
      hstack mt mx := by
  rcases hOt : EmbeddingLoader.get_onehot L fs "title" scorer (.bool b) with ⟨r1, t1⟩
  rcases hOx : EmbeddingLoader.get_onehot L fs "text" scorer (.bool b) with ⟨r2, t2⟩
  rw [hOt] at ht
  rw [hOx] at hx
  simp only at ht hx
  subst ht hx
  rw [EmbeddingLoader.get_onehot.eq_def]
  rcases hs with rfl | rfl <;>
    simp [hOt, hOx, PyVal.isBool] <;>
    rcases h : hstack mt mx with m | e <;>
    simp [h]

/-- Once the `title` and `text` Doc2Vec artifacts load successfully (under
any non-corpus parameters), the `concat` request returns exactly their
column-axis `numpy.concatenate`. -/
theorem get_d2v_concat_combines (L : EmbeddingLoader) (fs : FS)
    (v w mc dm e : PyVal) (mt mx : Mat)
    (ht : (EmbeddingLoader.get_d2v L fs "title" v w mc dm e).1 = .ok mt)
    (hx : (EmbeddingLoader.get_d2v L fs "text" v w mc dm e).1 = .ok mx) :
    (EmbeddingLoader.get_d2v L fs "concat" v w mc dm e).1 =
      np_concatenate_axis1 mt mx := by
  rcases hOt : EmbeddingLoader.get_d2v L fs "title" v w mc dm e with ⟨r1, t1⟩
  rcases hOx : EmbeddingLoader.get_d2v L fs "text" v w mc dm e with ⟨r2, t2⟩
  rw [hOt] at ht
  rw [hOx] at hx
  simp only at ht hx
  subst ht hx
  rw [EmbeddingLoader.get_d2v.eq_def]
  simp [hOt, hOx]
  rcases h : np_concatenate_axis1 mt mx with m | er <;> simp [h]

/-- For a valid normalizer, once the `title` and `text` naive Doc2Vec
artifacts load successfully, the `concat` request returns exactly their
column-axis `numpy.concatenate`. -/
theorem get_nd2v_concat_combines (L : EmbeddingLoader) (fs : FS)
    (nz : Option String) (mt mx : Mat)
    (hn : nz = Option.none ∨ nz = some "l2" ∨ nz = some "mean")
    (ht : (EmbeddingLoader.get_nd2v L fs "title" nz).1 = .ok mt)
    (hx : (EmbeddingLoader.get_nd2v L fs "text" nz).1 = .ok mx) :
    (EmbeddingLoader.get_nd2v L fs "concat" nz).1 =
      np_concatenate_axis1 mt mx := by
  rcases hOt : EmbeddingLoader.get_nd2v L fs "title" nz with ⟨r1, t1⟩
  rcases hOx : EmbeddingLoader.get_nd2v L fs "text" nz with ⟨r2, t2⟩
  rw [hOt] at ht
  rw [hOx] at hx
  simp only at ht hx
  subst ht hx
  rw [EmbeddingLoader.get_nd2v.eq_def]
  rcases hn with rfl | rfl | rfl <;>
    simp [hOt, hOx] <;>
    rcases h : np_concatenate_axis1 mt mx with m | er <;>
    simp [h]

/-- Claim C1: for every valid scorer and boolean normalize flag, the
one-hot `concat` result is exactly the sparse horizontal stack of the
`title` result followed by the `text` result, so when their row counts
agree it is a matrix whose column count is the sum of their column counts
and whose row count is their common row count; and the analogous dense
column-axis concatenation holds for the Doc2Vec and naive Doc2Vec loads
under identical non-corpus parameters. -/
theorem C1_concat_is_stack (L : EmbeddingLoader) (fs : FS) :
    (∀ (scorer : String) (b : Bool) (mt mx : Mat),
      scorer = "count" ∨ scorer = "tfidf" →
      (EmbeddingLoader.get_onehot L fs "title" scorer (.bool b)).1 = .ok mt →
      (EmbeddingLoader.get_onehot L fs "text" scorer (.bool b)).1 = .ok mx →
      (EmbeddingLoader.get_onehot L fs "concat" scorer (.bool b)).1 =
        hstack mt mx ∧
      (mt.rows = mx.rows → ∃ m : Mat,
        (EmbeddingLoader.get_onehot L fs "concat" scorer (.bool b)).1 = .ok m ∧
        m.cols = mt.cols + mx.cols ∧ m.rows = mt.rows ∧ m.rows = mx.rows)) ∧
    (∀ (v w mc dm e : PyVal) (mt mx : Mat),
      (EmbeddingLoader.get_d2v L fs "title" v w mc dm e).1 = .ok mt →
      (EmbeddingLoader.get_d2v L fs "text" v w mc dm e).1 = .ok mx →
      (EmbeddingLoader.get_d2v L fs "concat" v w mc dm e).1 =
        np_concatenate_axis1 mt mx ∧
      (mt.rows = mx.rows → ∃ m : Mat,
        (EmbeddingLoader.get_d2v L fs "concat" v w mc dm e).1 = .ok m ∧
        m.cols = mt.cols + mx.cols ∧ m.rows = mt.rows ∧ m.rows = mx.rows)) ∧
    (∀ (nz : Option String) (mt mx : Mat),
      nz = Option.none ∨ nz = some "l2" ∨ nz = some "mean" →
      (EmbeddingLoader.get_nd2v L fs "title" nz).1 = .ok mt →
      (EmbeddingLoader.get_nd2v L fs "text" nz).1 = .ok mx →
      (EmbeddingLoader.get_nd2v L fs "concat" nz).1 =
        np_concatenate_axis1 mt mx ∧
      (mt.rows = mx.rows → ∃ m : Mat,
        (EmbeddingLoader.get_nd2v L fs "concat" nz).1 = .ok m ∧
        m.cols = mt.cols + mx.cols ∧ m.rows = mt.rows ∧ m.rows = mx.rows)) := by
  refine ⟨?_, ?_, ?_⟩
  · intro scorer b mt mx hs ht hx
    have hc := get_onehot_concat_combines L fs scorer b mt mx hs ht hx
    refine ⟨hc, fun hr => ⟨⟨mt.rows, mt.cols + mx.cols,
      List.zipWith (fun r s => r ++ s) mt.data mx.data⟩, ?_, rfl, rfl, hr⟩⟩
    rw [hc]
    simp [hstack, hr]
  · intro v w mc dm e mt mx ht hx
    have hc := get_d2v_concat_combines L fs v w mc dm e mt mx ht hx
    refine ⟨hc, fun hr => ⟨⟨mt.rows, mt.cols + mx.cols,
      List.zipWith (fun r s => r ++ s) mt.data mx.data⟩, ?_, rfl, rfl, hr⟩⟩
    rw [hc]
    simp [np_concatenate_axis1, hr]
  · intro nz mt mx hn ht hx
    have hc := get_nd2v_concat_combines L fs nz mt mx hn ht hx
    refine ⟨hc, fun hr => ⟨⟨mt.rows, mt.cols + mx.cols,
      List.zipWith (fun r s => r ++ s) mt.data mx.data⟩, ?_, rfl, rfl, hr⟩⟩
    rw [hc]
    simp [np_concatenate_axis1, hr]

/-- Witness for C1, on the concrete fixture with matching row counts. -/
theorem C1_concat_is_stack_witness :
    (EmbeddingLoader.get_onehot demoLoader fsOk "concat" "count" (.bool false)).1 =
      hstack matA matB ∧
    (EmbeddingLoader.get_d2v demoLoader fsOk "concat" (.int 300) (.int 13)
        (.int 5) (.bool false) (.int 100)).1 = np_concatenate_axis1 matA matB ∧
    (EmbeddingLoader.get_nd2v demoLoader fsOk "concat" Option.none).1 =
      np_concatenate_axis1 matA matB := by
  obtain ⟨h1, h2, h3⟩ := C1_concat_is_stack demoLoader fsOk
  refine ⟨(h1 "count" false matA matB (Or.inl rfl) ?_ ?_).1,
          (h2 (.int 300) (.int 13) (.int 5) (.bool false) (.int 100) matA matB
            ?_ ?_).1,
          (h3 Option.none matA matB (Or.inl rfl) ?_ ?_).1⟩ <;>
    (simp [EmbeddingLoader.get_onehot, EmbeddingLoader.get_d2v,
      EmbeddingLoader.get_nd2v]; decide)

/-- Claim C6: for every load operation on `concat`, if the loaded `title`
and `text` artifacts have differing row counts, the operation fails with
the shape-mismatch `ValueError` of the combining primitive rather than
returning a combined result. -/
theorem C6_shape_mismatch (L : EmbeddingLoader) (fs : FS) :
    (∀ (scorer : String) (b : Bool) (mt mx : Mat),
      scorer = "count" ∨ scorer = "tfidf" →
      (EmbeddingLoader.get_onehot L fs "title" scorer (.bool b)).1 = .ok mt →
      (EmbeddingLoader.get_onehot L fs "text" scorer (.bool b)).1 = .ok mx →
      mt.rows ≠ mx.rows →
      (EmbeddingLoader.get_onehot L fs "concat" scorer (.bool b)).1 =
        .error (.valueError "blocks must have matching row dimensions")) ∧
    (∀ (v w mc dm e : PyVal) (mt mx : Mat),
      (EmbeddingLoader.get_d2v L fs "title" v w mc dm e).1 = .ok mt →
      (EmbeddingLoader.get_d2v L fs "text" v w mc dm e).1 = .ok mx →
      mt.rows ≠ mx.rows →
      (EmbeddingLoader.get_d2v L fs "concat" v w mc dm e).1 =
        .error (.valueError
          "input array dimensions other than the concatenation axis must match")) ∧
    (∀ (nz : Option String) (mt mx : Mat),
      nz = Option.none ∨ nz = some "l2" ∨ nz = some "mean" →
      (EmbeddingLoader.get_nd2v L fs "title" nz).1 = .ok mt →
      (EmbeddingLoader.get_nd2v L fs "text" nz).1 = .ok mx →
      mt.rows ≠ mx.rows →
      (EmbeddingLoader.get_nd2v L fs "concat" nz).1 =
        .error (.valueError
          "input array dimensions other than the concatenation axis must match")) := by
  refine ⟨?_, ?_, ?_⟩
  · intro scorer b mt mx hs ht hx hr
    rw [get_onehot_concat_combines L fs scorer b mt mx hs ht hx]
    simp [hstack, hr]
  · intro v w mc dm e mt mx ht hx hr
    rw [get_d2v_concat_combines L fs v w mc dm e mt mx ht hx]
    simp [np_concatenate_axis1, hr]
  · intro nz mt mx hn ht hx hr
    rw [get_nd2v_concat_combines L fs nz mt mx hn ht hx]
    simp [np_concatenate_axis1, hr]

/-- Witness for C6, on the concrete fixture whose `text` artifacts have one
row more than its `title` artifacts. -/
theorem C6_shape_mismatch_witness :
    (EmbeddingLoader.get_onehot demoLoader fsMis "concat" "count" (.bool false)).1 =
      .error (.valueError "blocks must have matching row dimensions") ∧
    (EmbeddingLoader.get_d2v demoLoader fsMis "concat" (.int 300) (.int 13)
        (.int 5) (.bool false) (.int 100)).1 =
      .error (.valueError
        "input array dimensions other than the concatenation axis must match") ∧
    (EmbeddingLoader.get_nd2v demoLoader fsMis "concat" Option.none).1 =
      .error (.valueError
        "input array dimensions other than the concatenation axis must match") := by
  obtain ⟨h1, h2, h3⟩ := C6_shape_mismatch demoLoader fsMis
  refine ⟨h1 "count" false matA matC (Or.inl rfl) ?_ ?_ ?_,
          h2 (.int 300) (.int 13) (.int 5) (.bool false) (.int 100) matA matC
            ?_ ?_ ?_,
          h3 Option.none matA matC (Or.inl rfl) ?_ ?_ ?_⟩ <;>
    first
      | decide
      | (simp [EmbeddingLoader.get_onehot, EmbeddingLoader.get_d2v,
          EmbeddingLoader.get_nd2v]; decide)

/-- Claim C5: out-of-domain parameters fail with a validation
(`AssertionError`) result and an empty trace — no file opened, nothing
printed — for every filesystem: an invalid corpus for each of the three
load operations, and an invalid scorer, a non-boolean normalize flag, or
an invalid normalizer for the operation taking it. -/
theorem C5_validation_before_io (L : EmbeddingLoader) (fs : FS) :
    (∀ (corpus : String),
      ¬ (corpus = "title" ∨ corpus = "text" ∨ corpus = "concat") →
      (∀ (scorer : String) (n : PyVal),
        EmbeddingLoader.get_onehot L fs corpus scorer n =
          (.error (.assertionError corpusMsg), Trace.empty)) ∧
      (∀ (v w mc dm e : PyVal),
        EmbeddingLoader.get_d2v L fs corpus v w mc dm e =
          (.error (.assertionError corpusMsg), Trace.empty)) ∧
      (∀ (nz : Option String),
        EmbeddingLoader.get_nd2v L fs corpus nz =
          (.error (.assertionError corpusMsg), Trace.empty))) ∧
    (∀ (corpus scorer : String) (n : PyVal),
      ¬ (scorer = "count" ∨ scorer = "tfidf") →
      ∃ msg, EmbeddingLoader.get_onehot L fs corpus scorer n =
        (.error (.assertionError msg), Trace.empty)) ∧
    (∀ (corpus scorer : String) (n : PyVal),
      ¬ n.isBool = true →
      ∃ msg, EmbeddingLoader.get_onehot L fs corpus scorer n =
        (.error (.assertionError msg), Trace.empty)) ∧
    (∀ (corpus : String) (nz : Option String),
      ¬ (nz = Option.none ∨ nz = some "l2" ∨ nz = some "mean") →
      ∃ msg, EmbeddingLoader.get_nd2v L fs corpus nz =
        (.error (.assertionError msg), Trace.empty)) := by
  refine ⟨?_, ?_, ?_, ?_⟩
  · intro corpus h
    refine ⟨fun scorer n => ?_, fun v w mc dm e => ?_, fun nz => ?_⟩
    · rw [EmbeddingLoader.get_onehot.eq_def]
      simp [h]
    · rw [EmbeddingLoader.get_d2v.eq_def]
      simp [h]
    · rw [EmbeddingLoader.get_nd2v.eq_def]
      simp [h]
  · intro corpus scorer n h
    by_cases hc : corpus = "title" ∨ corpus = "text" ∨ corpus = "concat"
    · exact ⟨scorerMsg, by rw [EmbeddingLoader.get_onehot.eq_def]; simp [hc, h]⟩
    · exact ⟨corpusMsg, by rw [EmbeddingLoader.get_onehot.eq_def]; simp [hc]⟩
  · intro corpus scorer n h
    by_cases hc : corpus = "title" ∨ corpus = "text" ∨ corpus = "concat"
    · by_cases hsc : scorer = "count" ∨ scorer = "tfidf"
      · exact ⟨normalizeMsg,
          by rw [EmbeddingLoader.get_onehot.eq_def]; simp [hc, hsc, h]⟩
      · exact ⟨scorerMsg,
          by rw [EmbeddingLoader.get_onehot.eq_def]; simp [hc, hsc]⟩
    · exact ⟨corpusMsg, by rw [EmbeddingLoader.get_onehot.eq_def]; simp [hc]⟩
  · intro corpus nz h
    by_cases hc : corpus = "title" ∨ corpus = "text" ∨ corpus = "concat"
    · exact ⟨normalizerMsg,
        by rw [EmbeddingLoader.get_nd2v.eq_def]; simp [hc, h]⟩
    · exact ⟨corpusMsg, by rw [EmbeddingLoader.get_nd2v.eq_def]; simp [hc]⟩

/-- Witness for C5: concrete out-of-domain corpus, scorer, normalize flag
and normalizer, against a filesystem on which every well-formed artifact
is present. -/
theorem C5_validation_before_io_witness :
    EmbeddingLoader.get_onehot demoLoader fsOk "body" "count" (.bool false) =
      (.error (.assertionError corpusMsg), Trace.empty) ∧
    (∃ msg, EmbeddingLoader.get_onehot demoLoader fsOk "title" "binary"
        (.bool false) = (.error (.assertionError msg), Trace.empty)) ∧
    (∃ msg, EmbeddingLoader.get_onehot demoLoader fsOk "title" "count"
        (.int 1) = (.error (.assertionError msg), Trace.empty)) ∧
    (∃ msg, EmbeddingLoader.get_nd2v demoLoader fsOk "title" (some "l1") =
      (.error (.assertionError msg), Trace.empty)) := by
  obtain ⟨h1, h2, h3, h4⟩ := C5_validation_before_io demoLoader fsOk
  exact ⟨(h1 "body" (by decide)).1 "count" (.bool false),
         h2 "title" "binary" (.bool false) (by decide),
         h3 "title" "count" (.int 1) (by decide),
         h4 "title" (some "l1") (by decide)⟩

/-- Claim C7: when the resolved path is missing, loading fails with a
not-found error carrying exactly that path, the path is opened once (no
retry), the two diagnostic hint lines and the caught error are printed,
and no partial result is returned; the same error propagates unchanged
through a one-hot load that resolves to that path. -/
theorem C7_missing_file (fs : FS) (path : String) :
    (fs.files path = Option.none →
      EmbeddingLoader.get_file fs path =
        (.error (.fileNotFoundError path),
         ⟨[path],
          ["unable to load " ++ path ++ ", see stack trace below",
           "double check that you have the file saved " ++ path,
           path]⟩)) ∧
    (∀ (L : EmbeddingLoader) (corpus scorer : String) (b : Bool),
      corpus = "title" ∨ corpus = "text" →
      scorer = "count" ∨ scorer = "tfidf" →
      path = os_path_join L.parent_dir
        (EmbeddingLoader.get_onehot_filename corpus scorer (.bool b)) →
      fs.files path = Option.none →
      EmbeddingLoader.get_onehot L fs corpus scorer (.bool b) =
        (.error (.fileNotFoundError path),
         ⟨[path],
          ["unable to load " ++ path ++ ", see stack trace below",
           "double check that you have the file saved " ++ path,
           path]⟩)) := by
  constructor
  · intro h
    simp [EmbeddingLoader.get_file, h]
  · intro L corpus scorer b hcorp hs hpath hnone
    subst hpath
    rcases hcorp with rfl | rfl <;> rcases hs with rfl | rfl <;>
      (rw [EmbeddingLoader.get_onehot.eq_def];
       simp [EmbeddingLoader.get_file, hnone, PyVal.isBool])

/-- Witness for C7: a well-formed but absent path on the demonstration
filesystem. -/
theorem C7_missing_file_witness :
    EmbeddingLoader.get_file fsOk "embeddings/absent.pkl" =
      (.error (.fileNotFoundError "embeddings/absent.pkl"),
       ⟨["embeddings/absent.pkl"],
        ["unable to load embeddings/absent.pkl, see stack trace below",
         "double check that you have the file saved embeddings/absent.pkl",
         "embeddings/absent.pkl"]⟩) := by
  have h := (C7_missing_file fsOk "embeddings/absent.pkl").1 (by decide)
  rw [h]
  decide

/-- Claim C8: construction with a base directory that does not exist fails
with the invalid-directory assertion, and construction with an existing
directory succeeds and stores exactly that path. -/
theorem C8_init (fs : FS) (d : String) :
    (fs.isdir d = false →
      EmbeddingLoader.init fs d =
        .error (.assertionError (d ++ " is not a valid directory"))) ∧
    (fs.isdir d = true →
      EmbeddingLoader.init fs d = .ok ⟨d⟩) := by
  constructor <;> intro h <;> simp [EmbeddingLoader.init, h]

/-- Witness for C8: on the demonstration filesystem, construction over a
missing directory fails and construction over `embeddings` succeeds. -/
theorem C8_init_witness :
    EmbeddingLoader.init fsOk "nonexistent" =
      .error (.assertionError "nonexistent is not a valid directory") ∧
    EmbeddingLoader.init fsOk "embeddings" = .ok demoLoader := by
  constructor
  · have h := (C8_init fsOk "nonexistent").1 (by decide)
    rw [h]
    decide
  · exact (C8_init fsOk "embeddings").2 (by decide)

/-- Claim C9: every load operation is deterministic and reads nothing but
the files: over two filesystems with identical file contents (even with
different directory predicates), each load operation returns identical
results — including identical traces — and the loader itself, which holds
only the base-directory path, is never modified by a load. -/
theorem C9_pure_reads (L : EmbeddingLoader) (fs fs2 : FS)
    (h : ∀ p, fs.files p = fs2.files p) :
    (∀ (corpus scorer : String) (n : PyVal),
      EmbeddingLoader.get_onehot L fs corpus scorer n =
        EmbeddingLoader.get_onehot L fs2 corpus scorer n) ∧
    (∀ (corpus : String) (v w mc dm e : PyVal),
      EmbeddingLoader.get_d2v L fs corpus v w mc dm e =
        EmbeddingLoader.get_d2v L fs2 corpus v w mc dm e) ∧
    (∀ (corpus : String) (nz : Option String),
      EmbeddingLoader.get_nd2v L fs corpus nz =
        EmbeddingLoader.get_nd2v L fs2 corpus nz) ∧
    EmbeddingLoader.get_label L fs = EmbeddingLoader.get_label L fs2 := by
  have hfile : ∀ p, EmbeddingLoader.get_file fs p =
      EmbeddingLoader.get_file fs2 p := by
    intro p
    simp only [EmbeddingLoader.get_file, h p]
  have honehot : ∀ (corpus scorer : String) (n : PyVal),
      EmbeddingLoader.get_onehot L fs corpus scorer n =
        EmbeddingLoader.get_onehot L fs2 corpus scorer n := by
    have hbase : ∀ (corpus scorer : String) (n : PyVal),
        corpus = "title" ∨ corpus = "text" →
        EmbeddingLoader.get_onehot L fs corpus scorer n =
          EmbeddingLoader.get_onehot L fs2 corpus scorer n := by
      intro corpus scorer n hc
      conv_lhs => rw [EmbeddingLoader.get_onehot.eq_def]
      conv_rhs => rw [EmbeddingLoader.get_onehot.eq_def]
      rcases hc with rfl | rfl <;> simp [hfile]
    intro corpus scorer n
    by_cases hc : corpus = "title" ∨ corpus = "text"
    · exact hbase corpus scorer n hc
    by_cases hcc : corpus = "concat"
    · subst hcc
      conv_lhs => rw [EmbeddingLoader.get_onehot.eq_def]
      conv_rhs => rw [EmbeddingLoader.get_onehot.eq_def]
      simp [hbase "title" scorer n (Or.inl rfl), hbase "text" scorer n (Or.inr rfl)]
    · have hall : ¬ (corpus = "title" ∨ corpus = "text" ∨ corpus = "concat") := by
        push_neg at hc ⊢
        exact ⟨hc.1, hc.2, hcc⟩
      conv_lhs => rw [EmbeddingLoader.get_onehot.eq_def]
      conv_rhs => rw [EmbeddingLoader.get_onehot.eq_def]
      simp [hall]
  have hd2v : ∀ (corpus : String) (v w mc dm e : PyVal),
      EmbeddingLoader.get_d2v L fs corpus v w mc dm e =
        EmbeddingLoader.get_d2v L fs2 corpus v w mc dm e := by
    have hbase : ∀ (corpus : String) (v w mc dm e : PyVal),
        corpus = "title" ∨ corpus = "text" →
        EmbeddingLoader.get_d2v L fs corpus v w mc dm e =
          EmbeddingLoader.get_d2v L fs2 corpus v w mc dm e := by
      intro corpus v w mc dm e hc
      conv_lhs => rw [EmbeddingLoader.get_d2v.eq_def]
      conv_rhs => rw [EmbeddingLoader.get_d2v.eq_def]
      rcases hc with rfl | rfl <;> simp [hfile]
    intro corpus v w mc dm e
    by_cases hc : corpus = "title" ∨ corpus = "text"
    · exact hbase corpus v w mc dm e hc
    by_cases hcc : corpus = "concat"
    · subst hcc
      conv_lhs => rw [EmbeddingLoader.get_d2v.eq_def]
      conv_rhs => rw [EmbeddingLoader.get_d2v.eq_def]
      simp [hbase "title" v w mc dm e (Or.inl rfl),
        hbase "text" v w mc dm e (Or.inr rfl)]
    · have hall : ¬ (corpus = "title" ∨ corpus = "text" ∨ corpus = "concat") := by
        push_neg at hc ⊢
        exact ⟨hc.1, hc.2, hcc⟩
      conv_lhs => rw [EmbeddingLoader.get_d2v.eq_def]
      conv_rhs => rw [EmbeddingLoader.get_d2v.eq_def]
      simp [hall]
  have hnd2v : ∀ (corpus : String) (nz : Option String),
      EmbeddingLoader.get_nd2v L fs corpus nz =
        EmbeddingLoader.get_nd2v L fs2 corpus nz := by
    have hbase : ∀ (corpus : String) (nz : Option String),
        corpus = "title" ∨ corpus = "text" →
        EmbeddingLoader.get_nd2v L fs corpus nz =
          EmbeddingLoader.get_nd2v L fs2 corpus nz := by
      intro corpus nz hc
      conv_lhs => rw [EmbeddingLoader.get_nd2v.eq_def]
      conv_rhs => rw [EmbeddingLoader.get_nd2v.eq_def]
      rcases hc with rfl | rfl <;> simp [hfile]
    intro corpus nz
    by_cases hc : corpus = "title" ∨ corpus = "text"
    · exact hbase corpus nz hc
    by_cases hcc : corpus = "concat"
    · subst hcc
      conv_lhs => rw [EmbeddingLoader.get_nd2v.eq_def]
      conv_rhs => rw [EmbeddingLoader.get_nd2v.eq_def]
      simp [hbase "title" nz (Or.inl rfl), hbase "text" nz (Or.inr rfl)]
    · have hall : ¬ (corpus = "title" ∨ corpus = "text" ∨ corpus = "concat") := by
        push_neg at hc ⊢
        exact ⟨hc.1, hc.2, hcc⟩
      conv_lhs => rw [EmbeddingLoader.get_nd2v.eq_def]
      conv_rhs => rw [EmbeddingLoader.get_nd2v.eq_def]
      simp [hall]
  exact ⟨honehot, hd2v, hnd2v, hfile _⟩

/-- Witness for C9: the demonstration filesystem and a copy of it whose
directory predicate is emptied give identical load results. -/
theorem C9_pure_reads_witness :
    EmbeddingLoader.get_onehot demoLoader fsOk "concat" "count" (.bool false) =
      EmbeddingLoader.get_onehot demoLoader fsOkAltDirs "concat" "count"
        (.bool false) ∧
    EmbeddingLoader.get_label demoLoader fsOk =
      EmbeddingLoader.get_label demoLoader fsOkAltDirs := by
  obtain ⟨h1, _, _, h4⟩ :=
    C9_pure_reads demoLoader fsOk fsOkAltDirs (fun p => rfl)
  exact ⟨h1 "concat" "count" (.bool false), h4⟩

/-- Claim C10: the Doc2Vec load validates only the corpus: for every value
of the remaining parameters no assertion failure is possible on a valid
corpus; on `title` or `text` the call reduces to loading the file named by
the filename function with those very values; and the filename depends on
the mode parameter only through its truthiness, the Python value `1`
producing the same `dm` segment as `True`. -/
theorem C10_d2v_validates_only_corpus (L : EmbeddingLoader) (fs : FS) :
    (∀ (corpus : String) (v w mc dm e : PyVal),
      corpus = "title" ∨ corpus = "text" ∨ corpus = "concat" →
      ∀ msg, (EmbeddingLoader.get_d2v L fs corpus v w mc dm e).1 ≠
        .error (.assertionError msg)) ∧
    (∀ (corpus : String) (v w mc dm e : PyVal),
      corpus = "title" ∨ corpus = "text" →
      EmbeddingLoader.get_d2v L fs corpus v w mc dm e =
        EmbeddingLoader.get_file fs (os_path_join L.parent_dir
          (EmbeddingLoader.get_d2v_filename corpus v w mc dm e))) ∧
    (∀ (corpus : String) (v w mc e dm dm2 : PyVal),
      dm.truthy = dm2.truthy →
      EmbeddingLoader.get_d2v_filename corpus v w mc dm e =
        EmbeddingLoader.get_d2v_filename corpus v w mc dm2 e) ∧
    (∀ (corpus : String) (v w mc e : PyVal),
      EmbeddingLoader.get_d2v_filename corpus v w mc (.int 1) e =
        EmbeddingLoader.get_d2v_filename corpus v w mc (.bool true) e) := by
  have hfing : ∀ (p msg : String),
      (EmbeddingLoader.get_file fs p).1 ≠ .error (.assertionError msg) := by
    intro p msg
    rcases hp : fs.files p with _ | it <;> simp [EmbeddingLoader.get_file, hp]
  have hbase : ∀ (corpus : String) (v w mc dm e : PyVal),
      corpus = "title" ∨ corpus = "text" →
      EmbeddingLoader.get_d2v L fs corpus v w mc dm e =
        EmbeddingLoader.get_file fs (os_path_join L.parent_dir
          (EmbeddingLoader.get_d2v_filename corpus v w mc dm e)) := by
    intro corpus v w mc dm e hc
    rw [EmbeddingLoader.get_d2v.eq_def]
    rcases hc with rfl | rfl <;> simp
  refine ⟨?_, hbase, ?_, ?_⟩
  · intro corpus v w mc dm e hc msg
    rcases hc with rfl | rfl | rfl
    · rw [hbase "title" v w mc dm e (Or.inl rfl)]
      exact hfing _ msg
    · rw [hbase "text" v w mc dm e (Or.inr rfl)]
      exact hfing _ msg
    · have hne1 : ∀ msg2, (EmbeddingLoader.get_d2v L fs "title" v w mc dm e).1 ≠
          .error (.assertionError msg2) := by
        intro msg2
        rw [hbase "title" v w mc dm e (Or.inl rfl)]
        exact hfing _ msg2
      have hne2 : ∀ msg2, (EmbeddingLoader.get_d2v L fs "text" v w mc dm e).1 ≠
          .error (.assertionError msg2) := by
        intro msg2
        rw [hbase "text" v w mc dm e (Or.inr rfl)]
        exact hfing _ msg2
      rw [EmbeddingLoader.get_d2v.eq_def]
      rcases hf1 : EmbeddingLoader.get_d2v L fs "title" v w mc dm e with ⟨r1, t1⟩
      rw [hf1] at hne1
      rcases hf2 : EmbeddingLoader.get_d2v L fs "text" v w mc dm e with ⟨r2, t2⟩
      rw [hf2] at hne2
      rcases r1 with er | a
      · simpa using hne1 msg
      · rcases r2 with er2 | b
        · simpa using hne2 msg
        · by_cases hr : a.rows = b.rows <;>
            simp [np_concatenate_axis1, hr]
  · intro corpus v w mc e dm dm2 hdm
    simp [EmbeddingLoader.get_d2v_filename, hdm]
  · intro corpus v w mc e
    simp [EmbeddingLoader.get_d2v_filename, PyVal.truthy]

/-- Witness for C10: a `concat` Doc2Vec load with a string vector size, an
unset window size, a boolean minimum count, an integer mode flag and a
string epoch count is not rejected by validation, and the integer mode
flag `1` names the same file as `True`. -/
theorem C10_d2v_validates_only_corpus_witness :
    (EmbeddingLoader.get_d2v demoLoader fsOk "concat" (.str "wide") PyVal.none
        (.bool true) (.int 1) (.str "")).1 ≠
      .error (.assertionError corpusMsg) ∧
    EmbeddingLoader.get_d2v_filename "title" (.int 300) (.int 13) (.int 5)
        (.int 1) (.int 100) =
      EmbeddingLoader.get_d2v_filename "title" (.int 300) (.int 13) (.int 5)
        (.bool true) (.int 100) := by
  obtain ⟨h1, _, _, h4⟩ := C10_d2v_validates_only_corpus demoLoader fsOk
  exact ⟨h1 "concat" (.str "wide") PyVal.none (.bool true) (.int 1) (.str "")
           (Or.inr (Or.inr rfl)) corpusMsg,
         h4 "title" (.int 300) (.int 13) (.int 5) (.int 100)⟩
